import Mathlib

/-!
# Priority override of the amdgpu scheduler (`amdgpu_sched.c`)

A shallow embedding of `drivers/gpu/drm/amd/amdgpu/amdgpu_sched.c`:

* `amdgpu_to_sched_priority`                 (lines 35-53)
* `amdgpu_sched_process_priority_override`   (lines 55-83)
* `amdgpu_sched_context_priority_override`   (lines 85-116)
* `amdgpu_sched_ioctl`                       (lines 118-149)

The C functions mutate kernel objects through pointers.  Here the kernel objects
live in an explicit `System` value that is passed in and returned; a `struct file *`
is an index into `System.files`.  Every call the source makes to a collaborator
(`fdget`, `fdput`, `amdgpu_file_to_fpriv`, `mutex_lock`, ...) and every diagnostic
(`WARN`, `DRM_ERROR`) is also appended to a trace, so that "this step was never
reached" is a statement about the trace.

The unused parameter `adev` of the two override functions, and `dev`/`filp` of the
ioctl, carry no information the bodies read and are left out.
-/

namespace AmdgpuSched

/-! ## Data model -/

/-- The errno constant `EINVAL`; the source returns `-EINVAL` at every failure site. -/
def EINVAL : Int := 22

/-- Modelled from the spec: `enum drm_sched_priority` is declared in the scheduler
header, which is not among the sources.  The spec's SchedPriority set is
{Low, Normal, HighSW, HighHW, Unset, Invalid}; the enumerators keep the names the
source uses for them. -/
inductive drm_sched_priority
  | DRM_SCHED_PRIORITY_LOW
  | DRM_SCHED_PRIORITY_NORMAL
  | DRM_SCHED_PRIORITY_HIGH_SW
  | DRM_SCHED_PRIORITY_HIGH_HW
  | DRM_SCHED_PRIORITY_UNSET
  | DRM_SCHED_PRIORITY_INVALID
  deriving DecidableEq

open drm_sched_priority

/-- Modelled from the spec: the constants `AMDGPU_CTX_PRIORITY_*` (the six external
priority levels) and `AMDGPU_SCHED_OP_*` (the two operation codes) come from the uapi
header `drm/amdgpu_drm.h`, which is not among the sources.  Their values are
parameters.  The C language requires the case labels of one `switch` to be pairwise
different; that is what the two last fields record. -/
structure amdgpu_drm where
  AMDGPU_CTX_PRIORITY_UNSET : Int
  AMDGPU_CTX_PRIORITY_VERY_LOW : Int
  AMDGPU_CTX_PRIORITY_LOW : Int
  AMDGPU_CTX_PRIORITY_NORMAL : Int
  AMDGPU_CTX_PRIORITY_HIGH : Int
  AMDGPU_CTX_PRIORITY_VERY_HIGH : Int
  AMDGPU_SCHED_OP_PROCESS_PRIORITY_OVERRIDE : Int
  AMDGPU_SCHED_OP_CONTEXT_PRIORITY_OVERRIDE : Int
  ctx_priority_labels_distinct :
    [AMDGPU_CTX_PRIORITY_VERY_HIGH, AMDGPU_CTX_PRIORITY_HIGH, AMDGPU_CTX_PRIORITY_NORMAL,
     AMDGPU_CTX_PRIORITY_LOW, AMDGPU_CTX_PRIORITY_VERY_LOW,
     AMDGPU_CTX_PRIORITY_UNSET].Nodup
  sched_op_labels_distinct :
    AMDGPU_SCHED_OP_PROCESS_PRIORITY_OVERRIDE ≠ AMDGPU_SCHED_OP_CONTEXT_PRIORITY_OVERRIDE

/-- The six enumerated external priority levels, in the order of the `case` labels
of `amdgpu_to_sched_priority`. -/
def amdgpu_drm.ctx_priority_levels (c : amdgpu_drm) : List Int :=
  [c.AMDGPU_CTX_PRIORITY_VERY_HIGH, c.AMDGPU_CTX_PRIORITY_HIGH,
   c.AMDGPU_CTX_PRIORITY_NORMAL, c.AMDGPU_CTX_PRIORITY_LOW,
   c.AMDGPU_CTX_PRIORITY_VERY_LOW, c.AMDGPU_CTX_PRIORITY_UNSET]

/-- One assignment of the constants, used to evaluate the model on concrete requests:
the values the Linux uapi header gives them. -/
def linux_uapi : amdgpu_drm where
  AMDGPU_CTX_PRIORITY_UNSET := -2048
  AMDGPU_CTX_PRIORITY_VERY_LOW := -1023
  AMDGPU_CTX_PRIORITY_LOW := -512
  AMDGPU_CTX_PRIORITY_NORMAL := 0
  AMDGPU_CTX_PRIORITY_HIGH := 512
  AMDGPU_CTX_PRIORITY_VERY_HIGH := 1023
  AMDGPU_SCHED_OP_PROCESS_PRIORITY_OVERRIDE := 1
  AMDGPU_SCHED_OP_CONTEXT_PRIORITY_OVERRIDE := 2
  ctx_priority_labels_distinct := by decide
  sched_op_labels_distinct := by decide

/-- Modelled from the spec: `struct amdgpu_ctx` is declared outside the sources.  The
spec's Context "holds its current SchedPriority among other state not covered here". -/
structure amdgpu_ctx where
  priority : drm_sched_priority
  deriving DecidableEq

/-- Modelled from the spec: `struct amdgpu_ctx_mgr`, the Context Registry.  `ctx_handles`
is the idr: the registered (id, context) pairs in the order `idr_for_each_entry`
visits them.  The mutex `lock` has no state here; taking and releasing it are trace
events. -/
structure amdgpu_ctx_mgr where
  ctx_handles : List (Nat × amdgpu_ctx)
  deriving DecidableEq

/-- Modelled from the spec: `struct amdgpu_fpriv`, the DriverConnectionState; it owns
a Context Registry (`fpriv->ctx_mgr` in the source). -/
structure amdgpu_fpriv where
  ctx_mgr : amdgpu_ctx_mgr
  deriving DecidableEq

/-- An open file object (`struct file`): either one opened on this driver, whose
private data is an `amdgpu_fpriv`, or a file of some other driver. -/
inductive file
  | amdgpu (fpriv : amdgpu_fpriv)
  | foreign
  deriving DecidableEq

/-- The kernel objects the unit reads and writes: the caller's descriptor table
(descriptor number to `struct file *`; several descriptors may name one file) and the
open files, a `struct file *` being an index into `files`. -/
structure System where
  fdtable : List (Int × Nat)
  files : List file
  deriving DecidableEq

/-- What the source calls or logs, in program order. -/
inductive Event
  | WARN (amdgpu_priority : Int)
  | DRM_ERROR (op : Int)
  | fdget (fd : Int)
  | fdput (fd : Int)
  | amdgpu_file_to_fpriv (filp : Nat)
  | mutex_lock (filp : Nat)
  | mutex_unlock (filp : Nat)
  | amdgpu_ctx_get (filp : Nat) (id : Nat)
  | amdgpu_ctx_put (filp : Nat) (id : Nat)
  | amdgpu_ctx_priority_override (filp : Nat) (id : Nat) (priority : drm_sched_priority)
  deriving DecidableEq

/-- The result of running one of the stateful functions: the `int` it returns, the
kernel objects afterwards, and the trace of the run. -/
structure Outcome where
  ret : Int
  sys : System
  trace : List Event
  deriving DecidableEq

/-- Modelled from the spec: the request (`args->in` of `union drm_amdgpu_sched`, declared
in the uapi header): operation code, process handle, external priority level and
context id. -/
structure drm_amdgpu_sched_in where
  op : Int
  fd : Int
  priority : Int
  ctx_id : Nat
  deriving DecidableEq

/-! ## Collaborators -/

/-- Modelled from the spec: `fdget` looks up the descriptor table entry of `fd`; the
result is `f.file`, `none` standing for the null pointer of an unopened or closed
descriptor. -/
def fdget (s : System) (fd : Int) : Option Nat :=
  s.fdtable.lookup fd

/-- Modelled from the spec: `amdgpu_file_to_fpriv` (defined in the driver's main file,
not among the sources) checks that the open object belongs to this driver and hands
out its connection state; otherwise it fails, with the `-EINVAL` the source itself
returns for a handle that is not open. -/
def amdgpu_file_to_fpriv (s : System) (filp : Nat) : Except Int amdgpu_fpriv :=
  match s.files[filp]? with
  | some (file.amdgpu fpriv) => Except.ok fpriv
  | _ => Except.error (-EINVAL)

/-- Modelled from the spec: `amdgpu_ctx_priority_override` (the context's
`set_priority`, defined with the context code, not among the sources) stores the
priority in the context. -/
def amdgpu_ctx_priority_override (_ctx : amdgpu_ctx) (priority : drm_sched_priority) :
    amdgpu_ctx :=
  { priority := priority }

/-- Modelled from the spec: `idr_find` on the registry, the lookup inside
`amdgpu_ctx_get`: the context registered under `id`, if any. -/
def idr_find : List (Nat × amdgpu_ctx) → Nat → Option amdgpu_ctx
  | [], _ => none
  | (i, ctx) :: rest, id => if i = id then some ctx else idr_find rest id

/-- Modelled from the spec: `amdgpu_ctx_get` looks `id` up in the registry of `fpriv`
and takes a reference on the context found (the reference is the trace event). -/
def amdgpu_ctx_get (fpriv : amdgpu_fpriv) (id : Nat) : Option amdgpu_ctx :=
  idr_find fpriv.ctx_mgr.ctx_handles id

/-- A write through the pointer `amdgpu_ctx_get` returned: the slot of the registry
that the lookup found now holds `ctx`; nothing else moves. -/
def idr_store : List (Nat × amdgpu_ctx) → Nat → amdgpu_ctx → List (Nat × amdgpu_ctx)
  | [], _, _ => []
  | (i, old) :: rest, id, ctx =>
    if i = id then (i, ctx) :: rest else (i, old) :: idr_store rest id ctx

/-- The body of the `idr_for_each_entry` loop of the process-wide path run over the
whole registry: every registered context gets `amdgpu_ctx_priority_override`. -/
def idr_for_each_entry_override (handles : List (Nat × amdgpu_ctx))
    (priority : drm_sched_priority) : List (Nat × amdgpu_ctx) :=
  handles.map fun e => (e.1, amdgpu_ctx_priority_override e.2 priority)

/-- The trace the loop of the process-wide path leaves: one override per entry. -/
def idr_for_each_entry_trace (filp : Nat) (handles : List (Nat × amdgpu_ctx))
    (priority : drm_sched_priority) : List Event :=
  handles.map fun e => Event.amdgpu_ctx_priority_override filp e.1 priority

/-- The open file `filp` with the registry of its connection state replaced. -/
def System.set_ctx_handles (s : System) (filp : Nat) (handles : List (Nat × amdgpu_ctx)) :
    System :=
  { s with files := s.files.set filp (file.amdgpu { ctx_mgr := { ctx_handles := handles } }) }

/-! ## The unit -/

/-- `amdgpu_to_sched_priority` (lines 35-53): the `switch` over the external level,
the case labels tried in source order; the second component is what the call logs
(the `WARN` of the `default` branch). -/
def amdgpu_to_sched_priority (c : amdgpu_drm) (amdgpu_priority : Int) :
    drm_sched_priority × List Event :=
  if amdgpu_priority = c.AMDGPU_CTX_PRIORITY_VERY_HIGH then
    (DRM_SCHED_PRIORITY_HIGH_HW, [])
  else if amdgpu_priority = c.AMDGPU_CTX_PRIORITY_HIGH then
    (DRM_SCHED_PRIORITY_HIGH_SW, [])
  else if amdgpu_priority = c.AMDGPU_CTX_PRIORITY_NORMAL then
    (DRM_SCHED_PRIORITY_NORMAL, [])
  else if amdgpu_priority = c.AMDGPU_CTX_PRIORITY_LOW then
    (DRM_SCHED_PRIORITY_LOW, [])
  else if amdgpu_priority = c.AMDGPU_CTX_PRIORITY_VERY_LOW then
    (DRM_SCHED_PRIORITY_LOW, [])
  else if amdgpu_priority = c.AMDGPU_CTX_PRIORITY_UNSET then
    (DRM_SCHED_PRIORITY_UNSET, [])
  else
    (DRM_SCHED_PRIORITY_INVALID, [Event.WARN amdgpu_priority])

/-- `amdgpu_sched_process_priority_override` (lines 55-83). -/
def amdgpu_sched_process_priority_override (s : System) (fd : Int)
    (priority : drm_sched_priority) : Outcome :=
  match fdget s fd with
  | none => ⟨-EINVAL, s, [Event.fdget fd]⟩
  | some filp =>
    match amdgpu_file_to_fpriv s filp with
    | Except.error r =>
      ⟨r, s, [Event.fdget fd, Event.amdgpu_file_to_fpriv filp, Event.fdput fd]⟩
    | Except.ok fpriv =>
      ⟨0,
       s.set_ctx_handles filp (idr_for_each_entry_override fpriv.ctx_mgr.ctx_handles priority),
       [Event.fdget fd, Event.amdgpu_file_to_fpriv filp, Event.mutex_lock filp]
         ++ idr_for_each_entry_trace filp fpriv.ctx_mgr.ctx_handles priority
         ++ [Event.mutex_unlock filp, Event.fdput fd]⟩

/-- `amdgpu_sched_context_priority_override` (lines 85-116). -/
def amdgpu_sched_context_priority_override (s : System) (fd : Int) (ctx_id : Nat)
    (priority : drm_sched_priority) : Outcome :=
  match fdget s fd with
  | none => ⟨-EINVAL, s, [Event.fdget fd]⟩
  | some filp =>
    match amdgpu_file_to_fpriv s filp with
    | Except.error r =>
      ⟨r, s, [Event.fdget fd, Event.amdgpu_file_to_fpriv filp, Event.fdput fd]⟩
    | Except.ok fpriv =>
      match amdgpu_ctx_get fpriv ctx_id with
      | none =>
        ⟨-EINVAL, s,
         [Event.fdget fd, Event.amdgpu_file_to_fpriv filp, Event.amdgpu_ctx_get filp ctx_id,
          Event.fdput fd]⟩
      | some ctx =>
        ⟨0,
         s.set_ctx_handles filp
           (idr_store fpriv.ctx_mgr.ctx_handles ctx_id (amdgpu_ctx_priority_override ctx priority)),
         [Event.fdget fd, Event.amdgpu_file_to_fpriv filp, Event.amdgpu_ctx_get filp ctx_id,
          Event.amdgpu_ctx_priority_override filp ctx_id priority,
          Event.amdgpu_ctx_put filp ctx_id, Event.fdput fd]⟩

/-- `amdgpu_sched_ioctl` (lines 118-149). -/
def amdgpu_sched_ioctl (c : amdgpu_drm) (s : System) (args : drm_amdgpu_sched_in) : Outcome :=
  let t := amdgpu_to_sched_priority c args.priority
  let priority := t.1
  if priority = DRM_SCHED_PRIORITY_INVALID then
    ⟨-EINVAL, s, t.2⟩
  else if args.op = c.AMDGPU_SCHED_OP_PROCESS_PRIORITY_OVERRIDE then
    let r := amdgpu_sched_process_priority_override s args.fd priority
    ⟨r.ret, r.sys, t.2 ++ r.trace⟩
  else if args.op = c.AMDGPU_SCHED_OP_CONTEXT_PRIORITY_OVERRIDE then
    let r := amdgpu_sched_context_priority_override s args.fd args.ctx_id priority
    ⟨r.ret, r.sys, t.2 ++ r.trace⟩
  else
    ⟨-EINVAL, s, t.2 ++ [Event.DRM_ERROR args.op]⟩

/-! ## Observations on a state -/

/-- The registry of the connection behind the open file `filp`: `none` when `filp` is
no open file of this driver. -/
def System.registry (s : System) (filp : Nat) : Option (List (Nat × amdgpu_ctx)) :=
  match s.files[filp]? with
  | some (file.amdgpu fpriv) => some fpriv.ctx_mgr.ctx_handles
  | _ => none

/-- The context registered under `id` in the registry of the open file `filp`. -/
def System.ctx (s : System) (filp : Nat) (id : Nat) : Option amdgpu_ctx :=
  match s.registry filp with
  | some handles => idr_find handles id
  | none => none

/-- The context ids registered in the registry of the open file `filp`. -/
def System.ctx_ids (s : System) (filp : Nat) : Option (List Nat) :=
  (s.registry filp).map fun handles => handles.map Prod.fst

/-- The handle `fd` resolves: it is open and its file belongs to this driver; the
result is the file and its connection state. -/
def resolve (s : System) (fd : Int) : Option (Nat × amdgpu_fpriv) :=
  match fdget s fd with
  | none => none
  | some filp =>
    match amdgpu_file_to_fpriv s filp with
    | Except.error _ => none
    | Except.ok fpriv => some (filp, fpriv)

/-- An event touches a registry when it takes or releases the registry lock, looks a
context up, releases one or writes one. -/
def Event.touches_registry : Event → Bool
  | Event.mutex_lock _ => true
  | Event.mutex_unlock _ => true
  | Event.amdgpu_ctx_get _ _ => true
  | Event.amdgpu_ctx_put _ _ => true
  | Event.amdgpu_ctx_priority_override _ _ _ => true
  | _ => false

/-- An event is part of handle resolution when it is one of the calls that turn a
descriptor into a connection state. -/
def Event.resolves_handle : Event → Bool
  | Event.fdget _ => true
  | Event.fdput _ => true
  | Event.amdgpu_file_to_fpriv _ => true
  | _ => false

/-! ## Concrete states used to evaluate the model -/

/-- One connection, open as descriptor 3, with the registry {1: Low, 2: Normal}. -/
def sys_low_normal : System where
  fdtable := [(3, 0)]
  files := [file.amdgpu ⟨⟨[(1, ⟨DRM_SCHED_PRIORITY_LOW⟩), (2, ⟨DRM_SCHED_PRIORITY_NORMAL⟩)]⟩⟩]

/-- One connection, open as descriptor 3, with the registry {5: Normal}. -/
def sys_five_normal : System where
  fdtable := [(3, 0)]
  files := [file.amdgpu ⟨⟨[(5, ⟨DRM_SCHED_PRIORITY_NORMAL⟩)]⟩⟩]

/-- Two connections of this driver whose registries both use the context id 1
(descriptors 3 and 4), a second descriptor 6 for the first connection, and a file of
another driver (descriptor 5).  Descriptor 7 is not open. -/
def sys_two_connections : System where
  fdtable := [(3, 0), (4, 1), (5, 2), (6, 0)]
  files :=
    [file.amdgpu ⟨⟨[(1, ⟨DRM_SCHED_PRIORITY_LOW⟩), (2, ⟨DRM_SCHED_PRIORITY_NORMAL⟩)]⟩⟩,
     file.amdgpu ⟨⟨[(1, ⟨DRM_SCHED_PRIORITY_NORMAL⟩)]⟩⟩,
     file.foreign]

/-! ## Lemmas on the registry and the open files -/

theorem idr_find_isSome_iff (handles : List (Nat × amdgpu_ctx)) (id : Nat) :
    (idr_find handles id).isSome ↔ id ∈ handles.map Prod.fst := by
  induction handles with
  | nil => simp [idr_find]
  | cons e rest ih =>
    obtain ⟨i, ctx⟩ := e
    by_cases h : i = id
    · simp [idr_find, h]
    · have h2 : ¬ id = i := fun h3 => h h3.symm
      simp [idr_find, h, h2, ih]

theorem idr_find_eq_none_iff (handles : List (Nat × amdgpu_ctx)) (id : Nat) :
    idr_find handles id = none ↔ id ∉ handles.map Prod.fst := by
  rw [← idr_find_isSome_iff]
  cases idr_find handles id <;> simp

theorem idr_for_each_entry_override_ids (handles : List (Nat × amdgpu_ctx))
    (priority : drm_sched_priority) :
    (idr_for_each_entry_override handles priority).map Prod.fst = handles.map Prod.fst := by
  simp [idr_for_each_entry_override, List.map_map, Function.comp_def]

theorem idr_for_each_entry_override_priority (handles : List (Nat × amdgpu_ctx))
    (priority : drm_sched_priority) :
    ∀ e ∈ idr_for_each_entry_override handles priority, e.2.priority = priority := by
  intro e he
  simp only [idr_for_each_entry_override, List.mem_map] at he
  obtain ⟨e0, _, rfl⟩ := he
  rfl

theorem idr_find_for_each_entry_override (handles : List (Nat × amdgpu_ctx))
    (priority : drm_sched_priority) (id : Nat) :
    idr_find (idr_for_each_entry_override handles priority) id
      = (idr_find handles id).map fun ctx => amdgpu_ctx_priority_override ctx priority := by
  induction handles with
  | nil => simp [idr_for_each_entry_override, idr_find]
  | cons e rest ih =>
    obtain ⟨i, ctx⟩ := e
    by_cases h : i = id
    · simp [idr_for_each_entry_override, idr_find, h]
    · simpa [idr_for_each_entry_override, idr_find, h] using ih

theorem idr_store_ids (handles : List (Nat × amdgpu_ctx)) (id : Nat) (ctx : amdgpu_ctx) :
    (idr_store handles id ctx).map Prod.fst = handles.map Prod.fst := by
  induction handles with
  | nil => simp [idr_store]
  | cons e rest ih =>
    obtain ⟨i, old⟩ := e
    by_cases h : i = id
    · simp [idr_store, h]
    · simp [idr_store, h, ih]

theorem idr_find_store_same (handles : List (Nat × amdgpu_ctx)) (id : Nat) (ctx : amdgpu_ctx)
    (h : id ∈ handles.map Prod.fst) : idr_find (idr_store handles id ctx) id = some ctx := by
  induction handles with
  | nil => simp at h
  | cons e rest ih =>
    obtain ⟨i, old⟩ := e
    by_cases hi : i = id
    · simp [idr_store, idr_find, hi]
    · have h2 : ¬ id = i := fun h3 => hi h3.symm
      have h3 : id ∈ rest.map Prod.fst := by simpa [h2] using h
      simp [idr_store, idr_find, hi, ih h3]

theorem idr_find_store_other (handles : List (Nat × amdgpu_ctx)) (id id2 : Nat)
    (ctx : amdgpu_ctx) (h : id2 ≠ id) :
    idr_find (idr_store handles id ctx) id2 = idr_find handles id2 := by
  induction handles with
  | nil => simp [idr_store]
  | cons e rest ih =>
    obtain ⟨i, old⟩ := e
    by_cases hi : i = id
    · subst hi
      have h2 : ¬ i = id2 := fun h3 => h h3.symm
      simp [idr_store, idr_find, h2]
    · by_cases h5 : i = id2
      · subst h5
        simp [idr_store, idr_find, hi]
      · simp [idr_store, idr_find, hi, h5, ih]

theorem resolve_eq_some {s : System} {fd : Int} {filp : Nat} {fpriv : amdgpu_fpriv}
    (h : resolve s fd = some (filp, fpriv)) :
    fdget s fd = some filp ∧ amdgpu_file_to_fpriv s filp = Except.ok fpriv
      ∧ s.files[filp]? = some (file.amdgpu fpriv) := by
  unfold resolve at h
  cases hf : fdget s fd with
  | none => simp [hf] at h
  | some p =>
    simp only [hf] at h
    cases hp : amdgpu_file_to_fpriv s p with
    | error r => simp [hp] at h
    | ok fp =>
      simp only [hp, Option.some.injEq, Prod.mk.injEq] at h
      obtain ⟨rfl, rfl⟩ := h
      refine ⟨rfl, hp, ?_⟩
      unfold amdgpu_file_to_fpriv at hp
      split at hp
      · next fp2 heq => simp only [Except.ok.injEq] at hp; rw [heq, hp]
      · simp at hp

theorem registry_of_file {s : System} {filp : Nat} {fpriv : amdgpu_fpriv}
    (h : s.files[filp]? = some (file.amdgpu fpriv)) :
    s.registry filp = some fpriv.ctx_mgr.ctx_handles := by
  simp [System.registry, h]

theorem registry_set_ctx_handles_same (s : System) (filp : Nat)
    (handles : List (Nat × amdgpu_ctx)) (h : filp < s.files.length) :
    (s.set_ctx_handles filp handles).registry filp = some handles := by
  simp [System.registry, System.set_ctx_handles, List.getElem?_set, h]

theorem registry_set_ctx_handles_other (s : System) (filp j : Nat)
    (handles : List (Nat × amdgpu_ctx)) (h : j ≠ filp) :
    (s.set_ctx_handles filp handles).registry j = s.registry j := by
  have h2 : ¬ filp = j := fun h3 => h h3.symm
  simp [System.registry, System.set_ctx_handles, List.getElem?_set, h2]

theorem set_ctx_handles_self {s : System} {filp : Nat} {fpriv : amdgpu_fpriv}
    (h : s.files[filp]? = some (file.amdgpu fpriv)) :
    s.set_ctx_handles filp fpriv.ctx_mgr.ctx_handles = s := by
  obtain ⟨fdtable, files⟩ := s
  simp only [System.set_ctx_handles, System.mk.injEq, true_and]
  apply List.ext_getElem?
  intro n
  by_cases hn : filp = n
  · subst hn
    have hlt : filp < files.length := by
      rcases Nat.lt_or_ge filp files.length with h1 | h1
      · exact h1
      · simp [List.getElem?_eq_none h1] at h
    simp only [List.getElem?_set, hlt, if_true]
    simpa using h.symm
  · simp [List.getElem?_set, hn]

theorem lt_of_file {s : System} {filp : Nat} {f : file} (h : s.files[filp]? = some f) :
    filp < s.files.length := by
  rcases Nat.lt_or_ge filp s.files.length with h1 | h1
  · exact h1
  · simp [List.getElem?_eq_none h1] at h

theorem ctx_priority_labels_ne (c : amdgpu_drm) :
    c.AMDGPU_CTX_PRIORITY_HIGH ≠ c.AMDGPU_CTX_PRIORITY_VERY_HIGH
    ∧ c.AMDGPU_CTX_PRIORITY_NORMAL ≠ c.AMDGPU_CTX_PRIORITY_VERY_HIGH
    ∧ c.AMDGPU_CTX_PRIORITY_NORMAL ≠ c.AMDGPU_CTX_PRIORITY_HIGH
    ∧ c.AMDGPU_CTX_PRIORITY_LOW ≠ c.AMDGPU_CTX_PRIORITY_VERY_HIGH
    ∧ c.AMDGPU_CTX_PRIORITY_LOW ≠ c.AMDGPU_CTX_PRIORITY_HIGH
    ∧ c.AMDGPU_CTX_PRIORITY_LOW ≠ c.AMDGPU_CTX_PRIORITY_NORMAL
    ∧ c.AMDGPU_CTX_PRIORITY_VERY_LOW ≠ c.AMDGPU_CTX_PRIORITY_VERY_HIGH
    ∧ c.AMDGPU_CTX_PRIORITY_VERY_LOW ≠ c.AMDGPU_CTX_PRIORITY_HIGH
    ∧ c.AMDGPU_CTX_PRIORITY_VERY_LOW ≠ c.AMDGPU_CTX_PRIORITY_NORMAL
    ∧ c.AMDGPU_CTX_PRIORITY_VERY_LOW ≠ c.AMDGPU_CTX_PRIORITY_LOW
    ∧ c.AMDGPU_CTX_PRIORITY_UNSET ≠ c.AMDGPU_CTX_PRIORITY_VERY_HIGH
    ∧ c.AMDGPU_CTX_PRIORITY_UNSET ≠ c.AMDGPU_CTX_PRIORITY_HIGH
    ∧ c.AMDGPU_CTX_PRIORITY_UNSET ≠ c.AMDGPU_CTX_PRIORITY_NORMAL
    ∧ c.AMDGPU_CTX_PRIORITY_UNSET ≠ c.AMDGPU_CTX_PRIORITY_LOW
    ∧ c.AMDGPU_CTX_PRIORITY_UNSET ≠ c.AMDGPU_CTX_PRIORITY_VERY_LOW := by
  have h := c.ctx_priority_labels_distinct
  simp only [List.nodup_cons, List.mem_cons, List.mem_singleton, not_or, List.not_mem_nil,
    not_false_eq_true, List.nodup_nil, and_true] at h
  obtain ⟨⟨a1, a2, a3, a4, a5⟩, ⟨b1, b2, b3, b4⟩, ⟨d1, d2, d3⟩, ⟨e1, e2⟩, f1⟩ := h
  exact ⟨Ne.symm a1, Ne.symm a2, Ne.symm b1, Ne.symm a3, Ne.symm b2, Ne.symm d1, Ne.symm a4,
    Ne.symm b3, Ne.symm d2, Ne.symm e1, Ne.symm a5, Ne.symm b4, Ne.symm d3, Ne.symm e2,
    Ne.symm f1⟩

theorem amdgpu_to_sched_priority_of_not_level (c : amdgpu_drm) (x : Int)
    (h : x ∉ c.ctx_priority_levels) :
    amdgpu_to_sched_priority c x = (DRM_SCHED_PRIORITY_INVALID, [Event.WARN x]) := by
  simp only [amdgpu_drm.ctx_priority_levels, List.mem_cons, List.mem_singleton, not_or,
    List.not_mem_nil, or_false] at h
  obtain ⟨h1, h2, h3, h4, h5, h6⟩ := h
  simp [amdgpu_to_sched_priority, h1, h2, h3, h4, h5, h6]

theorem amdgpu_to_sched_priority_of_level (c : amdgpu_drm) (x : Int)
    (h : x ∈ c.ctx_priority_levels) :
    (amdgpu_to_sched_priority c x).1 ≠ DRM_SCHED_PRIORITY_INVALID
      ∧ (amdgpu_to_sched_priority c x).2 = [] := by
  simp only [amdgpu_drm.ctx_priority_levels, List.mem_cons, List.mem_singleton,
    List.not_mem_nil, or_false] at h
  unfold amdgpu_to_sched_priority
  split_ifs <;> simp_all

theorem amdgpu_file_to_fpriv_error {s : System} {filp : Nat} {r : Int}
    (h : amdgpu_file_to_fpriv s filp = Except.error r) : r = -EINVAL := by
  unfold amdgpu_file_to_fpriv at h
  split at h
  · simp at h
  · simp only [Except.error.injEq] at h
    exact h.symm

theorem process_priority_override_resolved {s : System} {fd : Int} {filp : Nat}
    {fpriv : amdgpu_fpriv} (hres : resolve s fd = some (filp, fpriv))
    (priority : drm_sched_priority) :
    amdgpu_sched_process_priority_override s fd priority
      = ⟨0,
         s.set_ctx_handles filp
           (idr_for_each_entry_override fpriv.ctx_mgr.ctx_handles priority),
         [Event.fdget fd, Event.amdgpu_file_to_fpriv filp, Event.mutex_lock filp]
           ++ idr_for_each_entry_trace filp fpriv.ctx_mgr.ctx_handles priority
           ++ [Event.mutex_unlock filp, Event.fdput fd]⟩ := by
  obtain ⟨h1, h2, _⟩ := resolve_eq_some hres
  simp only [amdgpu_sched_process_priority_override, h1, h2]

theorem process_priority_override_unresolved {s : System} {fd : Int}
    (hres : resolve s fd = none) (priority : drm_sched_priority) :
    (amdgpu_sched_process_priority_override s fd priority).ret = -EINVAL
    ∧ (amdgpu_sched_process_priority_override s fd priority).sys = s
    ∧ ∀ e ∈ (amdgpu_sched_process_priority_override s fd priority).trace,
        e.resolves_handle = true ∧ e.touches_registry = false := by
  unfold resolve at hres
  unfold amdgpu_sched_process_priority_override
  cases hf : fdget s fd with
  | none => simp [Event.touches_registry, Event.resolves_handle]
  | some p =>
    simp only [hf] at hres
    cases hp : amdgpu_file_to_fpriv s p with
    | error r =>
      have hr := amdgpu_file_to_fpriv_error hp
      subst hr
      simp [hp, Event.touches_registry, Event.resolves_handle]
    | ok fp => simp [hp] at hres

theorem context_priority_override_found {s : System} {fd : Int} {filp : Nat}
    {fpriv : amdgpu_fpriv} (hres : resolve s fd = some (filp, fpriv)) {ctx_id : Nat}
    {ctx : amdgpu_ctx} (hget : idr_find fpriv.ctx_mgr.ctx_handles ctx_id = some ctx)
    (priority : drm_sched_priority) :
    amdgpu_sched_context_priority_override s fd ctx_id priority
      = ⟨0,
         s.set_ctx_handles filp
           (idr_store fpriv.ctx_mgr.ctx_handles ctx_id
             (amdgpu_ctx_priority_override ctx priority)),
         [Event.fdget fd, Event.amdgpu_file_to_fpriv filp, Event.amdgpu_ctx_get filp ctx_id,
          Event.amdgpu_ctx_priority_override filp ctx_id priority,
          Event.amdgpu_ctx_put filp ctx_id, Event.fdput fd]⟩ := by
  obtain ⟨h1, h2, _⟩ := resolve_eq_some hres
  simp only [amdgpu_sched_context_priority_override, h1, h2, amdgpu_ctx_get, hget]

theorem context_priority_override_missing {s : System} {fd : Int} {filp : Nat}
    {fpriv : amdgpu_fpriv} (hres : resolve s fd = some (filp, fpriv)) {ctx_id : Nat}
    (hget : idr_find fpriv.ctx_mgr.ctx_handles ctx_id = none)
    (priority : drm_sched_priority) :
    amdgpu_sched_context_priority_override s fd ctx_id priority
      = ⟨-EINVAL, s,
         [Event.fdget fd, Event.amdgpu_file_to_fpriv filp, Event.amdgpu_ctx_get filp ctx_id,
          Event.fdput fd]⟩ := by
  obtain ⟨h1, h2, _⟩ := resolve_eq_some hres
  simp only [amdgpu_sched_context_priority_override, h1, h2, amdgpu_ctx_get, hget]

theorem context_priority_override_unresolved {s : System} {fd : Int}
    (hres : resolve s fd = none) (ctx_id : Nat) (priority : drm_sched_priority) :
    (amdgpu_sched_context_priority_override s fd ctx_id priority).ret = -EINVAL
    ∧ (amdgpu_sched_context_priority_override s fd ctx_id priority).sys = s
    ∧ ∀ e ∈ (amdgpu_sched_context_priority_override s fd ctx_id priority).trace,
        e.resolves_handle = true ∧ e.touches_registry = false := by
  unfold resolve at hres
  unfold amdgpu_sched_context_priority_override
  cases hf : fdget s fd with
  | none => simp [Event.touches_registry, Event.resolves_handle]
  | some p =>
    simp only [hf] at hres
    cases hp : amdgpu_file_to_fpriv s p with
    | error r =>
      have hr := amdgpu_file_to_fpriv_error hp
      subst hr
      simp [hp, Event.touches_registry, Event.resolves_handle]
    | ok fp => simp [hp] at hres

theorem ctx_set_ctx_handles_same (s : System) (filp : Nat)
    (handles : List (Nat × amdgpu_ctx)) (h : filp < s.files.length) (id : Nat) :
    (s.set_ctx_handles filp handles).ctx filp id = idr_find handles id := by
  simp [System.ctx, registry_set_ctx_handles_same s filp handles h]

theorem ctx_ids_set_ctx_handles_same (s : System) (filp : Nat)
    (handles : List (Nat × amdgpu_ctx)) (h : filp < s.files.length) :
    (s.set_ctx_handles filp handles).ctx_ids filp = some (handles.map Prod.fst) := by
  simp [System.ctx_ids, registry_set_ctx_handles_same s filp handles h]

theorem process_priority_override_error {s : System} {fd : Int}
    {priority : drm_sched_priority}
    (h : (amdgpu_sched_process_priority_override s fd priority).ret ≠ 0) :
    (amdgpu_sched_process_priority_override s fd priority).sys = s
    ∧ (amdgpu_sched_process_priority_override s fd priority).ret = -EINVAL := by
  cases hres : resolve s fd with
  | none =>
    obtain ⟨h1, h2, _⟩ := process_priority_override_unresolved hres priority
    exact ⟨h2, h1⟩
  | some q =>
    obtain ⟨filp, fpriv⟩ := q
    rw [process_priority_override_resolved hres priority] at h
    exact absurd rfl h

theorem context_priority_override_error {s : System} {fd : Int} {ctx_id : Nat}
    {priority : drm_sched_priority}
    (h : (amdgpu_sched_context_priority_override s fd ctx_id priority).ret ≠ 0) :
    (amdgpu_sched_context_priority_override s fd ctx_id priority).sys = s
    ∧ (amdgpu_sched_context_priority_override s fd ctx_id priority).ret = -EINVAL := by
  cases hres : resolve s fd with
  | none =>
    obtain ⟨h1, h2, _⟩ := context_priority_override_unresolved hres ctx_id priority
    exact ⟨h2, h1⟩
  | some q =>
    obtain ⟨filp, fpriv⟩ := q
    cases hfind : idr_find fpriv.ctx_mgr.ctx_handles ctx_id with
    | none =>
      rw [context_priority_override_missing hres hfind priority]
      exact ⟨rfl, rfl⟩
    | some ctx =>
      rw [context_priority_override_found hres hfind priority] at h
      exact absurd rfl h

theorem ctx_set_ctx_handles_other (s : System) (filp j : Nat)
    (handles : List (Nat × amdgpu_ctx)) (h : j ≠ filp) (id : Nat) :
    (s.set_ctx_handles filp handles).ctx j id = s.ctx j id := by
  simp [System.ctx, registry_set_ctx_handles_other s filp j handles h]

theorem ctx_ids_set_ctx_handles_other (s : System) (filp j : Nat)
    (handles : List (Nat × amdgpu_ctx)) (h : j ≠ filp) :
    (s.set_ctx_handles filp handles).ctx_ids j = s.ctx_ids j := by
  simp [System.ctx_ids, registry_set_ctx_handles_other s filp j handles h]

/-! ## The claims -/

/-- C1: `amdgpu_to_sched_priority` maps the six enumerated external levels as the fixed
table says (VeryHigh to HighHW, High to HighSW, Normal to Normal, Low and VeryLow to
Low, Unset to Unset), logging nothing, and on an enumerated level its result is never
Invalid. -/
theorem amdgpu_to_sched_priority_table (c : amdgpu_drm) :
    amdgpu_to_sched_priority c c.AMDGPU_CTX_PRIORITY_VERY_HIGH = (DRM_SCHED_PRIORITY_HIGH_HW, [])
    ∧ amdgpu_to_sched_priority c c.AMDGPU_CTX_PRIORITY_HIGH = (DRM_SCHED_PRIORITY_HIGH_SW, [])
    ∧ amdgpu_to_sched_priority c c.AMDGPU_CTX_PRIORITY_NORMAL = (DRM_SCHED_PRIORITY_NORMAL, [])
    ∧ amdgpu_to_sched_priority c c.AMDGPU_CTX_PRIORITY_LOW = (DRM_SCHED_PRIORITY_LOW, [])
    ∧ amdgpu_to_sched_priority c c.AMDGPU_CTX_PRIORITY_VERY_LOW = (DRM_SCHED_PRIORITY_LOW, [])
    ∧ amdgpu_to_sched_priority c c.AMDGPU_CTX_PRIORITY_UNSET = (DRM_SCHED_PRIORITY_UNSET, [])
    ∧ ∀ x ∈ c.ctx_priority_levels,
        (amdgpu_to_sched_priority c x).1 ≠ DRM_SCHED_PRIORITY_INVALID := by
  obtain ⟨n1, n2, n3, n4, n5, n6, n7, n8, n9, n10, n11, n12, n13, n14, n15⟩ :=
    ctx_priority_labels_ne c
  refine ⟨?_, ?_, ?_, ?_, ?_, ?_, ?_⟩
  · simp [amdgpu_to_sched_priority]
  · simp [amdgpu_to_sched_priority, n1]
  · simp [amdgpu_to_sched_priority, n2, n3]
  · simp [amdgpu_to_sched_priority, n4, n5, n6]
  · simp [amdgpu_to_sched_priority, n7, n8, n9]
  · simp [amdgpu_to_sched_priority, n11, n12, n13, n14, n15]
  · intro x hx
    exact (amdgpu_to_sched_priority_of_level c x hx).1

/-- C1, evaluated: with the constants of the Linux header, 1023, 512, 0, -512, -1023
and -2048 translate to HighHW, HighSW, Normal, Low, Low and Unset. -/
theorem amdgpu_to_sched_priority_table_witness :
    amdgpu_to_sched_priority linux_uapi 1023 = (DRM_SCHED_PRIORITY_HIGH_HW, [])
    ∧ amdgpu_to_sched_priority linux_uapi 512 = (DRM_SCHED_PRIORITY_HIGH_SW, [])
    ∧ amdgpu_to_sched_priority linux_uapi 0 = (DRM_SCHED_PRIORITY_NORMAL, [])
    ∧ amdgpu_to_sched_priority linux_uapi (-512) = (DRM_SCHED_PRIORITY_LOW, [])
    ∧ amdgpu_to_sched_priority linux_uapi (-1023) = (DRM_SCHED_PRIORITY_LOW, [])
    ∧ amdgpu_to_sched_priority linux_uapi (-2048) = (DRM_SCHED_PRIORITY_UNSET, [])
    ∧ (amdgpu_to_sched_priority linux_uapi (-1023)).1 ≠ DRM_SCHED_PRIORITY_INVALID :=
  have h := amdgpu_to_sched_priority_table linux_uapi
  ⟨h.1, h.2.1, h.2.2.1, h.2.2.2.1, h.2.2.2.2.1, h.2.2.2.2.2.1,
    h.2.2.2.2.2.2 (-1023) (by decide)⟩

/-- C8: on every integer that is not one of the six enumerated levels
`amdgpu_to_sched_priority` returns Invalid (and logs the warning), so none of Low,
Normal, HighSW, HighHW, Unset; and it returns Invalid if and only if its input is not
an enumerated level. -/
theorem amdgpu_to_sched_priority_invalid_iff (c : amdgpu_drm) (x : Int) :
    (x ∉ c.ctx_priority_levels →
        amdgpu_to_sched_priority c x = (DRM_SCHED_PRIORITY_INVALID, [Event.WARN x]))
    ∧ ((amdgpu_to_sched_priority c x).1 = DRM_SCHED_PRIORITY_INVALID
        ↔ x ∉ c.ctx_priority_levels) := by
  refine ⟨amdgpu_to_sched_priority_of_not_level c x, ?_, ?_⟩
  · intro h hx
    exact (amdgpu_to_sched_priority_of_level c x hx).1 h
  · intro h
    rw [amdgpu_to_sched_priority_of_not_level c x h]

/-- C8, evaluated: 999 is no level of the Linux header and translates to Invalid. -/
theorem amdgpu_to_sched_priority_invalid_iff_witness :
    (999 : Int) ∉ linux_uapi.ctx_priority_levels
    ∧ amdgpu_to_sched_priority linux_uapi 999
        = (DRM_SCHED_PRIORITY_INVALID, [Event.WARN 999]) :=
  ⟨by decide, (amdgpu_to_sched_priority_invalid_iff linux_uapi 999).1 (by decide)⟩

/-- C5: a request whose priority level is not enumerated makes `amdgpu_sched_ioctl`
return `-EINVAL` (the spec's InvalidArgument) whatever its operation code, handle and
context id are; the state is the one before the call and the only thing the run did
is the warning of the translation: no handle was resolved, no override path ran. -/
theorem amdgpu_sched_ioctl_invalid_priority (c : amdgpu_drm) (s : System)
    (args : drm_amdgpu_sched_in) (h : args.priority ∉ c.ctx_priority_levels) :
    amdgpu_sched_ioctl c s args = ⟨-EINVAL, s, [Event.WARN args.priority]⟩
    ∧ ∀ e ∈ (amdgpu_sched_ioctl c s args).trace,
        e.resolves_handle = false ∧ e.touches_registry = false := by
  have ht := amdgpu_to_sched_priority_of_not_level c args.priority h
  have h1 : amdgpu_sched_ioctl c s args = ⟨-EINVAL, s, [Event.WARN args.priority]⟩ := by
    simp [amdgpu_sched_ioctl, ht]
  refine ⟨h1, ?_⟩
  intro e he
  rw [h1] at he
  simp only [List.mem_singleton] at he
  subst he
  exact ⟨rfl, rfl⟩

/-- C5, evaluated: priority 999 on descriptor 7, which is not open, with either
operation code: `-EINVAL` after the warning alone. -/
theorem amdgpu_sched_ioctl_invalid_priority_witness :
    (999 : Int) ∉ linux_uapi.ctx_priority_levels
    ∧ fdget sys_two_connections 7 = none
    ∧ amdgpu_sched_ioctl linux_uapi sys_two_connections ⟨1, 7, 999, 0⟩
        = ⟨-22, sys_two_connections, [Event.WARN 999]⟩ :=
  ⟨by decide, by decide,
    (amdgpu_sched_ioctl_invalid_priority linux_uapi sys_two_connections ⟨1, 7, 999, 0⟩
      (by decide)).1⟩

/-- C6: a request with an enumerated priority level whose operation code is neither
of the two override codes makes `amdgpu_sched_ioctl` return `-EINVAL` (the spec's
InvalidArgument) whatever its handle and context id are; the state is the one before
the call and the only thing the run did is the error message: no handle was
resolved. -/
theorem amdgpu_sched_ioctl_invalid_op (c : amdgpu_drm) (s : System)
    (args : drm_amdgpu_sched_in) (hprio : args.priority ∈ c.ctx_priority_levels)
    (hproc : args.op ≠ c.AMDGPU_SCHED_OP_PROCESS_PRIORITY_OVERRIDE)
    (hctx : args.op ≠ c.AMDGPU_SCHED_OP_CONTEXT_PRIORITY_OVERRIDE) :
    amdgpu_sched_ioctl c s args = ⟨-EINVAL, s, [Event.DRM_ERROR args.op]⟩
    ∧ ∀ e ∈ (amdgpu_sched_ioctl c s args).trace,
        e.resolves_handle = false ∧ e.touches_registry = false := by
  obtain ⟨ht1, ht2⟩ := amdgpu_to_sched_priority_of_level c args.priority hprio
  have h1 : amdgpu_sched_ioctl c s args = ⟨-EINVAL, s, [Event.DRM_ERROR args.op]⟩ := by
    simp [amdgpu_sched_ioctl, ht1, ht2, hproc, hctx]
  refine ⟨h1, ?_⟩
  intro e he
  rw [h1] at he
  simp only [List.mem_singleton] at he
  subst he
  exact ⟨rfl, rfl⟩

/-- C6, evaluated: operation code 3 with priority Normal on an open descriptor of
this driver: `-EINVAL` after the error message alone. -/
theorem amdgpu_sched_ioctl_invalid_op_witness :
    amdgpu_sched_ioctl linux_uapi sys_two_connections ⟨3, 3, 0, 1⟩
      = ⟨-22, sys_two_connections, [Event.DRM_ERROR 3]⟩ :=
  (amdgpu_sched_ioctl_invalid_op linux_uapi sys_two_connections ⟨3, 3, 0, 1⟩
    (by decide) (by decide) (by decide)).1

/-- C2: when the handle resolves, `amdgpu_sched_process_priority_override` returns 0
(success); afterwards the registry of that connection has the same context ids as
before and every context in it has the priority that was passed; when the registry is
empty the call returns 0 and the state is the one before the call. -/
theorem process_priority_override_sets_all (s : System) (fd : Int)
    (priority : drm_sched_priority) (filp : Nat) (fpriv : amdgpu_fpriv)
    (hres : resolve s fd = some (filp, fpriv)) :
    (amdgpu_sched_process_priority_override s fd priority).ret = 0
    ∧ (amdgpu_sched_process_priority_override s fd priority).sys.ctx_ids filp
        = s.ctx_ids filp
    ∧ s.ctx_ids filp = some (fpriv.ctx_mgr.ctx_handles.map Prod.fst)
    ∧ (∃ handles,
        (amdgpu_sched_process_priority_override s fd priority).sys.registry filp
          = some handles
        ∧ ∀ e ∈ handles, e.2.priority = priority)
    ∧ (∀ id ∈ fpriv.ctx_mgr.ctx_handles.map Prod.fst,
        ((amdgpu_sched_process_priority_override s fd priority).sys.ctx filp id).map
          amdgpu_ctx.priority = some priority)
    ∧ (fpriv.ctx_mgr.ctx_handles = [] →
        (amdgpu_sched_process_priority_override s fd priority).sys = s) := by
  obtain ⟨_, _, hfile⟩ := resolve_eq_some hres
  have hlt := lt_of_file hfile
  have hreg := registry_of_file hfile
  rw [process_priority_override_resolved hres priority]
  refine ⟨rfl, ?_, ?_, ?_, ?_, ?_⟩
  · rw [ctx_ids_set_ctx_handles_same s filp _ hlt, idr_for_each_entry_override_ids]
    simp only [System.ctx_ids, hreg, Option.map_some']
  · simp only [System.ctx_ids, hreg, Option.map_some']
  · exact ⟨_, registry_set_ctx_handles_same s filp _ hlt,
      idr_for_each_entry_override_priority _ priority⟩
  · intro id hid
    simp only [ctx_set_ctx_handles_same s filp _ hlt, idr_find_for_each_entry_override]
    rw [← idr_find_isSome_iff] at hid
    cases hfind : idr_find fpriv.ctx_mgr.ctx_handles id with
    | none => simp [hfind] at hid
    | some ctx => rfl
  · intro hempty
    have h2 : idr_for_each_entry_override fpriv.ctx_mgr.ctx_handles priority
        = fpriv.ctx_mgr.ctx_handles := by
      rw [hempty]; rfl
    simp only [h2]
    exact set_ctx_handles_self hfile

/-- C2, evaluated: registry {1: Low, 2: Normal}, external level VeryHigh (1023 in the
Linux header): the call returns 0 and both contexts read HighHW, directly and through
`amdgpu_sched_ioctl`. -/
theorem process_priority_override_sets_all_witness :
    resolve sys_low_normal 3
        = some (0, ⟨⟨[(1, ⟨DRM_SCHED_PRIORITY_LOW⟩), (2, ⟨DRM_SCHED_PRIORITY_NORMAL⟩)]⟩⟩)
    ∧ (amdgpu_to_sched_priority linux_uapi 1023).1 = DRM_SCHED_PRIORITY_HIGH_HW
    ∧ (amdgpu_sched_process_priority_override sys_low_normal 3
        DRM_SCHED_PRIORITY_HIGH_HW).ret = 0
    ∧ ((amdgpu_sched_process_priority_override sys_low_normal 3
        DRM_SCHED_PRIORITY_HIGH_HW).sys.ctx 0 1).map amdgpu_ctx.priority
          = some DRM_SCHED_PRIORITY_HIGH_HW
    ∧ ((amdgpu_sched_process_priority_override sys_low_normal 3
        DRM_SCHED_PRIORITY_HIGH_HW).sys.ctx 0 2).map amdgpu_ctx.priority
          = some DRM_SCHED_PRIORITY_HIGH_HW
    ∧ (amdgpu_sched_ioctl linux_uapi sys_low_normal ⟨1, 3, 1023, 0⟩).ret = 0
    ∧ (amdgpu_sched_ioctl linux_uapi sys_low_normal ⟨1, 3, 1023, 0⟩).sys.registry 0
        = some [(1, ⟨DRM_SCHED_PRIORITY_HIGH_HW⟩), (2, ⟨DRM_SCHED_PRIORITY_HIGH_HW⟩)] :=
  have h := process_priority_override_sets_all sys_low_normal 3 DRM_SCHED_PRIORITY_HIGH_HW 0
    ⟨⟨[(1, ⟨DRM_SCHED_PRIORITY_LOW⟩), (2, ⟨DRM_SCHED_PRIORITY_NORMAL⟩)]⟩⟩ (by decide)
  ⟨by decide, by decide, h.1, h.2.2.2.2.1 1 (by decide), h.2.2.2.2.1 2 (by decide),
    by decide, by decide⟩

/-- C3: when the handle resolves and the registry of that connection contains
`ctx_id`, `amdgpu_sched_context_priority_override` returns 0 (success) and afterwards
the context stored under `ctx_id` has the priority that was passed. -/
theorem context_priority_override_sets (s : System) (fd : Int) (ctx_id : Nat)
    (priority : drm_sched_priority) (filp : Nat) (fpriv : amdgpu_fpriv)
    (hres : resolve s fd = some (filp, fpriv))
    (hid : ctx_id ∈ fpriv.ctx_mgr.ctx_handles.map Prod.fst) :
    (amdgpu_sched_context_priority_override s fd ctx_id priority).ret = 0
    ∧ ((amdgpu_sched_context_priority_override s fd ctx_id priority).sys.ctx filp
        ctx_id).map amdgpu_ctx.priority = some priority := by
  obtain ⟨_, _, hfile⟩ := resolve_eq_some hres
  have hlt := lt_of_file hfile
  have hsome := (idr_find_isSome_iff fpriv.ctx_mgr.ctx_handles ctx_id).2 hid
  cases hfind : idr_find fpriv.ctx_mgr.ctx_handles ctx_id with
  | none => simp [hfind] at hsome
  | some ctx =>
    rw [context_priority_override_found hres hfind priority]
    refine ⟨rfl, ?_⟩
    simp only [ctx_set_ctx_handles_same s filp _ hlt, idr_find_store_same _ _ _ hid]
    rfl

/-- C3, evaluated: context 2 of the first connection, reached through its second
descriptor, is set to HighSW. -/
theorem context_priority_override_sets_witness :
    resolve sys_two_connections 6
        = some (0, ⟨⟨[(1, ⟨DRM_SCHED_PRIORITY_LOW⟩), (2, ⟨DRM_SCHED_PRIORITY_NORMAL⟩)]⟩⟩)
    ∧ (amdgpu_sched_context_priority_override sys_two_connections 6 2
        DRM_SCHED_PRIORITY_HIGH_SW).ret = 0
    ∧ ((amdgpu_sched_context_priority_override sys_two_connections 6 2
        DRM_SCHED_PRIORITY_HIGH_SW).sys.ctx 0 2).map amdgpu_ctx.priority
          = some DRM_SCHED_PRIORITY_HIGH_SW :=
  have h := context_priority_override_sets sys_two_connections 6 2 DRM_SCHED_PRIORITY_HIGH_SW 0
    ⟨⟨[(1, ⟨DRM_SCHED_PRIORITY_LOW⟩), (2, ⟨DRM_SCHED_PRIORITY_NORMAL⟩)]⟩⟩ (by decide)
    (by decide)
  ⟨by decide, h.1, h.2⟩

/-- C4: when the handle resolves and `ctx_id` is not in the registry of that
connection, `amdgpu_sched_context_priority_override` returns `-EINVAL` at the failed
lookup (the spec's ContextNotFound: the run resolved the handle, looked the context
up and released the handle) and the state, so the registry, is the one before the
call, whatever the priority. -/
theorem context_priority_override_not_found (s : System) (fd : Int) (ctx_id : Nat)
    (priority : drm_sched_priority) (filp : Nat) (fpriv : amdgpu_fpriv)
    (hres : resolve s fd = some (filp, fpriv))
    (hid : ctx_id ∉ fpriv.ctx_mgr.ctx_handles.map Prod.fst) :
    amdgpu_sched_context_priority_override s fd ctx_id priority
      = ⟨-EINVAL, s,
         [Event.fdget fd, Event.amdgpu_file_to_fpriv filp, Event.amdgpu_ctx_get filp ctx_id,
          Event.fdput fd]⟩ :=
  context_priority_override_missing hres
    ((idr_find_eq_none_iff fpriv.ctx_mgr.ctx_handles ctx_id).2 hid) priority

/-- C4, evaluated: registry {5: Normal}, override of context 9 to High (HighSW): the
call returns `-EINVAL` and context 5 is still Normal. -/
theorem context_priority_override_not_found_witness :
    resolve sys_five_normal 3 = some (0, ⟨⟨[(5, ⟨DRM_SCHED_PRIORITY_NORMAL⟩)]⟩⟩)
    ∧ (amdgpu_to_sched_priority linux_uapi 512).1 = DRM_SCHED_PRIORITY_HIGH_SW
    ∧ amdgpu_sched_context_priority_override sys_five_normal 3 9 DRM_SCHED_PRIORITY_HIGH_SW
        = ⟨-22, sys_five_normal,
           [Event.fdget 3, Event.amdgpu_file_to_fpriv 0, Event.amdgpu_ctx_get 0 9,
            Event.fdput 3]⟩
    ∧ (amdgpu_sched_context_priority_override sys_five_normal 3 9
        DRM_SCHED_PRIORITY_HIGH_SW).sys.ctx 0 5 = some ⟨DRM_SCHED_PRIORITY_NORMAL⟩
    ∧ (amdgpu_sched_ioctl linux_uapi sys_five_normal ⟨2, 3, 512, 9⟩).ret = -22 :=
  ⟨by decide, by decide,
    context_priority_override_not_found sys_five_normal 3 9 DRM_SCHED_PRIORITY_HIGH_SW 0
      ⟨⟨[(5, ⟨DRM_SCHED_PRIORITY_NORMAL⟩)]⟩⟩ (by decide) (by decide),
    by decide, by decide⟩

/-- C7: a request with an enumerated priority level and one of the two override codes
whose handle does not resolve (the descriptor is not open, or its file is not one of
this driver) makes `amdgpu_sched_ioctl` return `-EINVAL` (the spec's InvalidHandle);
the state is the one before the call and every step of the run is a step of handle
resolution, none touches a registry.  The same holds of the two override functions
called with any priority. -/
theorem unresolved_handle_rejected (c : amdgpu_drm) (s : System)
    (args : drm_amdgpu_sched_in) (hprio : args.priority ∈ c.ctx_priority_levels)
    (hop : args.op = c.AMDGPU_SCHED_OP_PROCESS_PRIORITY_OVERRIDE
      ∨ args.op = c.AMDGPU_SCHED_OP_CONTEXT_PRIORITY_OVERRIDE)
    (hres : resolve s args.fd = none) :
    ((amdgpu_sched_ioctl c s args).ret = -EINVAL
      ∧ (amdgpu_sched_ioctl c s args).sys = s
      ∧ ∀ e ∈ (amdgpu_sched_ioctl c s args).trace,
          e.resolves_handle = true ∧ e.touches_registry = false)
    ∧ (∀ priority,
        (amdgpu_sched_process_priority_override s args.fd priority).ret = -EINVAL
        ∧ (amdgpu_sched_process_priority_override s args.fd priority).sys = s
        ∧ ∀ e ∈ (amdgpu_sched_process_priority_override s args.fd priority).trace,
            e.resolves_handle = true ∧ e.touches_registry = false)
    ∧ (∀ ctx_id priority,
        (amdgpu_sched_context_priority_override s args.fd ctx_id priority).ret = -EINVAL
        ∧ (amdgpu_sched_context_priority_override s args.fd ctx_id priority).sys = s
        ∧ ∀ e ∈ (amdgpu_sched_context_priority_override s args.fd ctx_id priority).trace,
            e.resolves_handle = true ∧ e.touches_registry = false) := by
  obtain ⟨ht1, ht2⟩ := amdgpu_to_sched_priority_of_level c args.priority hprio
  refine ⟨?_, fun priority => process_priority_override_unresolved hres priority,
    fun ctx_id priority => context_priority_override_unresolved hres ctx_id priority⟩
  rcases hop with hop | hop
  · have h := process_priority_override_unresolved hres
      (amdgpu_to_sched_priority c args.priority).1
    simpa [amdgpu_sched_ioctl, ht1, ht2, hop] using h
  · have hne : ¬ c.AMDGPU_SCHED_OP_CONTEXT_PRIORITY_OVERRIDE
        = c.AMDGPU_SCHED_OP_PROCESS_PRIORITY_OVERRIDE :=
      fun h => c.sched_op_labels_distinct h.symm
    have h := context_priority_override_unresolved hres args.ctx_id
      (amdgpu_to_sched_priority c args.priority).1
    simpa [amdgpu_sched_ioctl, ht1, ht2, hop, hne] using h

/-- C7, evaluated: descriptor 7 is not open and descriptor 5 is a file of another
driver; both override requests on them return `-EINVAL` and leave the state as it
was. -/
theorem unresolved_handle_rejected_witness :
    (fdget sys_two_connections 7 = none ∧ resolve sys_two_connections 7 = none)
    ∧ (fdget sys_two_connections 5 = some 2 ∧ resolve sys_two_connections 5 = none)
    ∧ amdgpu_sched_ioctl linux_uapi sys_two_connections ⟨1, 7, 512, 0⟩
        = ⟨-22, sys_two_connections, [Event.fdget 7]⟩
    ∧ ((amdgpu_sched_ioctl linux_uapi sys_two_connections ⟨2, 5, 512, 1⟩).ret = -22
        ∧ (amdgpu_sched_ioctl linux_uapi sys_two_connections ⟨2, 5, 512, 1⟩).sys
            = sys_two_connections
        ∧ ∀ e ∈ (amdgpu_sched_ioctl linux_uapi sys_two_connections ⟨2, 5, 512, 1⟩).trace,
            e.resolves_handle = true ∧ e.touches_registry = false) :=
  ⟨by decide, by decide, by decide,
    (unresolved_handle_rejected linux_uapi sys_two_connections ⟨2, 5, 512, 1⟩ (by decide)
      (by decide) (by decide)).1⟩

/-- C9: `amdgpu_sched_context_priority_override` changes at most the context stored
under `ctx_id` in the registry of the connection the handle resolves to.  Whatever
the call returns, the descriptor table is as before, every registry has the context
ids it had, and the context stored under `id` in the registry of the open file `j` is
the one stored there before, unless `j` is the file the handle resolves to and `id`
is `ctx_id`. -/
theorem context_priority_override_frame (s : System) (fd : Int) (ctx_id : Nat)
    (priority : drm_sched_priority) (j : Nat) :
    (amdgpu_sched_context_priority_override s fd ctx_id priority).sys.fdtable = s.fdtable
    ∧ (amdgpu_sched_context_priority_override s fd ctx_id priority).sys.ctx_ids j
        = s.ctx_ids j
    ∧ ∀ id, ((resolve s fd).map Prod.fst ≠ some j ∨ id ≠ ctx_id) →
        (amdgpu_sched_context_priority_override s fd ctx_id priority).sys.ctx j id
          = s.ctx j id := by
  cases hres : resolve s fd with
  | none =>
    obtain ⟨_, h2, _⟩ := context_priority_override_unresolved hres ctx_id priority
    rw [h2]
    exact ⟨rfl, rfl, fun _ _ => rfl⟩
  | some q =>
    obtain ⟨filp, fpriv⟩ := q
    obtain ⟨_, _, hfile⟩ := resolve_eq_some hres
    have hlt := lt_of_file hfile
    have hreg := registry_of_file hfile
    cases hfind : idr_find fpriv.ctx_mgr.ctx_handles ctx_id with
    | none =>
      rw [context_priority_override_missing hres hfind priority]
      exact ⟨rfl, rfl, fun _ _ => rfl⟩
    | some ctx =>
      rw [context_priority_override_found hres hfind priority]
      refine ⟨rfl, ?_, ?_⟩
      · by_cases hj : j = filp
        · subst hj
          rw [ctx_ids_set_ctx_handles_same s j _ hlt, idr_store_ids]
          simp only [System.ctx_ids, hreg, Option.map_some']
        · exact ctx_ids_set_ctx_handles_other s filp j _ hj
      · intro id hcond
        by_cases hj : j = filp
        · subst hj
          have hid : id ≠ ctx_id := by
            rcases hcond with h1 | h1
            · exact absurd rfl h1
            · exact h1
          rw [ctx_set_ctx_handles_same s j _ hlt, idr_find_store_other _ _ _ _ hid]
          simp only [System.ctx, hreg]
        · exact ctx_set_ctx_handles_other s filp j _ hj id

/-- C9, evaluated: both connections register a context under id 1.  Setting context 1
of the first connection (descriptor 3) to HighHW succeeds; context 1 of the second
connection and context 2 of the first are as before.  Asking for context 2 through
the second connection (descriptor 4), which has none, fails and context 2 of the
first connection is as before. -/
theorem context_priority_override_frame_witness :
    (amdgpu_sched_context_priority_override sys_two_connections 3 1
        DRM_SCHED_PRIORITY_HIGH_HW).ret = 0
    ∧ (amdgpu_sched_context_priority_override sys_two_connections 3 1
        DRM_SCHED_PRIORITY_HIGH_HW).sys.ctx 0 1 = some ⟨DRM_SCHED_PRIORITY_HIGH_HW⟩
    ∧ (amdgpu_sched_context_priority_override sys_two_connections 3 1
        DRM_SCHED_PRIORITY_HIGH_HW).sys.ctx 1 1 = sys_two_connections.ctx 1 1
    ∧ sys_two_connections.ctx 1 1 = some ⟨DRM_SCHED_PRIORITY_NORMAL⟩
    ∧ (amdgpu_sched_context_priority_override sys_two_connections 3 1
        DRM_SCHED_PRIORITY_HIGH_HW).sys.ctx 0 2 = sys_two_connections.ctx 0 2
    ∧ (amdgpu_sched_context_priority_override sys_two_connections 4 2
        DRM_SCHED_PRIORITY_HIGH_HW).ret = -22
    ∧ (amdgpu_sched_context_priority_override sys_two_connections 4 2
        DRM_SCHED_PRIORITY_HIGH_HW).sys.ctx 0 2 = sys_two_connections.ctx 0 2 :=
  ⟨by decide, by decide,
    (context_priority_override_frame sys_two_connections 3 1 DRM_SCHED_PRIORITY_HIGH_HW
      1).2.2 1 (Or.inl (by decide)),
    by decide,
    (context_priority_override_frame sys_two_connections 3 1 DRM_SCHED_PRIORITY_HIGH_HW
      0).2.2 2 (Or.inr (by decide)),
    by decide,
    (context_priority_override_frame sys_two_connections 4 2 DRM_SCHED_PRIORITY_HIGH_HW
      0).2.2 2 (Or.inl (by decide))⟩

/-- C10: whenever `amdgpu_sched_ioctl` returns an error (a value other than 0) the
whole state is the one before the call: every registry has the same context ids and
every context the same priority.  The error is `-EINVAL`, the value the source
returns for the spec's InvalidArgument, InvalidHandle and ContextNotFound alike. -/
theorem amdgpu_sched_ioctl_error_no_change (c : amdgpu_drm) (s : System)
    (args : drm_amdgpu_sched_in) (herr : (amdgpu_sched_ioctl c s args).ret ≠ 0) :
    (amdgpu_sched_ioctl c s args).sys = s
    ∧ (amdgpu_sched_ioctl c s args).ret = -EINVAL
    ∧ ∀ j id, (amdgpu_sched_ioctl c s args).sys.ctx_ids j = s.ctx_ids j
        ∧ (amdgpu_sched_ioctl c s args).sys.ctx j id = s.ctx j id := by
  have key : (amdgpu_sched_ioctl c s args).sys = s
      ∧ (amdgpu_sched_ioctl c s args).ret = -EINVAL := by
    unfold amdgpu_sched_ioctl at herr ⊢
    simp only at herr ⊢
    split_ifs at herr ⊢ with h1 h2 h3
    · exact ⟨rfl, rfl⟩
    · exact process_priority_override_error herr
    · exact context_priority_override_error herr
    · exact ⟨rfl, rfl⟩
  refine ⟨key.1, key.2, ?_⟩
  intro j id
  rw [key.1]
  exact ⟨rfl, rfl⟩

/-- C10, evaluated: the four failures (priority 999; operation code 3; a descriptor
that is not open; context 9 missing from the registry) all return `-EINVAL` and leave
the state as it was. -/
theorem amdgpu_sched_ioctl_error_no_change_witness :
    ((amdgpu_sched_ioctl linux_uapi sys_two_connections ⟨2, 3, 0, 9⟩).ret ≠ 0
      ∧ (amdgpu_sched_ioctl linux_uapi sys_two_connections ⟨2, 3, 0, 9⟩).sys
          = sys_two_connections)
    ∧ (amdgpu_sched_ioctl linux_uapi sys_two_connections ⟨1, 3, 999, 0⟩).sys
        = sys_two_connections
    ∧ (amdgpu_sched_ioctl linux_uapi sys_two_connections ⟨3, 3, 0, 0⟩).sys
        = sys_two_connections
    ∧ (amdgpu_sched_ioctl linux_uapi sys_two_connections ⟨1, 7, 0, 0⟩).sys
        = sys_two_connections :=
  ⟨⟨by decide,
      (amdgpu_sched_ioctl_error_no_change linux_uapi sys_two_connections ⟨2, 3, 0, 9⟩
        (by decide)).1⟩,
    (amdgpu_sched_ioctl_error_no_change linux_uapi sys_two_connections ⟨1, 3, 999, 0⟩
      (by decide)).1,
    (amdgpu_sched_ioctl_error_no_change linux_uapi sys_two_connections ⟨3, 3, 0, 0⟩
      (by decide)).1,
    (amdgpu_sched_ioctl_error_no_change linux_uapi sys_two_connections ⟨1, 7, 0, 0⟩
      (by decide)).1⟩

end AmdgpuSched
